import Mathlib

/-!
A verification development for the lsstUtils display/inspection helpers
(difference-imaging debugging utilities).

The Python module is shallowly embedded: floating-point samples become
rationals, NaN entries become `none`, fallible code returns `Option` or
`Except`, and the external collaborators (rendering backend, afw images,
footprints, catalogs) are modelled by explicit structures recording exactly
the data the module reads and writes.  Machine-level floating point is not
modelled; all arithmetic is exact.
-/

/-- A 2-D pixel array: rows of samples; a NaN entry is modelled as `none`. -/
abbrev Array2 := List (List (Option ℚ))

/-- The slope component of np.polyfit(x, ys, 1) where x i = i - c: the
closed normal-equations form of the unique least-squares degree-1 slope,
which is the mathematical semantics of the external fit routine. -/
def polyfitSlope (ys : List ℚ) (c : ℚ) : ℚ :=
  let m : ℚ := ys.length
  let sx : ℚ := ∑ i ∈ Finset.range ys.length, ((i : ℚ) - c)
  let sy : ℚ := ∑ i ∈ Finset.range ys.length, ys.getD i 0
  let sxy : ℚ := ∑ i ∈ Finset.range ys.length, ((i : ℚ) - c) * ys.getD i 0
  let sxx : ℚ := ∑ i ∈ Finset.range ys.length, ((i : ℚ) - c) ^ 2
  (m * sxy - sx * sy) / (m * sxx - sx ^ 2)

/-- The trimming step of zscale: sort ascending (samples.sort()), then take
the Python slice samples[chop_size:-chop_size] with chop_size =
int(0.10*len(samples)).  Python slice semantics: the stop index -chop_size
is len - chop_size when chop_size > 0, but -0 is 0, so when chop_size = 0
the slice samples[0:0] is empty. -/
def trimSorted (samples : List ℚ) : List ℚ :=
  let sorted := List.insertionSort (· ≤ ·) samples
  let n := sorted.length
  let chop_size := n / 10
  let stop := if chop_size = 0 then 0 else n - chop_size
  (sorted.take stop).drop chop_size

/-- The tail of the zscale computation, from the trimmed subset: median by
index, least-squares fit against (index - i_midpoint), projected display
bounds.  Returns `none` when subset[i_midpoint] is out of range (the Python
IndexError on a degenerate subset). -/
def zscaleFit (subset : List ℚ) (contrast : ℚ) : Option (ℚ × ℚ) :=
  let i_midpoint := subset.length / 2
  match subset.get? i_midpoint with
  | none => none
  | some median =>
    let slope := polyfitSlope subset (i_midpoint : ℚ)
    let z1 := median + slope / contrast * ((1 : ℚ) - (i_midpoint : ℚ))
    let z2 := median + slope / contrast * ((subset.length : ℚ) - (i_midpoint : ℚ))
    some (z1, z2)

/-- zscale on the flattened, NaN-filtered sample list. -/
def zscaleSamples (samples : List ℚ) (contrast : ℚ) : Option (ℚ × ℚ) :=
  zscaleFit (trimSorted samples) contrast

/-- Embedding of zscale(input_img, contrast=0.25) (src/lsstUtils.py,
lines 28-46): flatten, drop NaN entries, sort, trim, take the median by
index, fit a degree-1 least-squares line, project the two display bounds.
The contrast argument is explicit; the Python default is 1/4. -/
def zscale (input_img : Array2) (contrast : ℚ) : Option (ℚ × ℚ) :=
  zscaleSamples ((input_img.flatten).filterMap id) contrast

/-- The trimmed subset as computed by zscale on a given input array. -/
def trimmedSubset (input_img : Array2) : List ℚ :=
  trimSorted ((input_img.flatten).filterMap id)

/-- Modelled from the spec: the trim step as the spec words it, "Discard
the lowest and highest 10% of remaining samples (symmetric trim)" - that
is, drop chop = n/10 samples from each end of the sorted list, dropping
nothing when chop = 0.  (Second definition, for comparison with the
source's `trimSorted` in the refinement claim.) -/
def trimSortedSpec (samples : List ℚ) : List ℚ :=
  let sorted := List.insertionSort (· ≤ ·) samples
  let n := sorted.length
  let chop_size := n / 10
  (sorted.take (n - chop_size)).drop chop_size

/-- Modelled from the spec: the Contrast Estimator following the spec's
step-by-step wording; it differs from the source only in the trim step. -/
def zscaleSpec (input_img : Array2) (contrast : ℚ) : Option (ℚ × ℚ) :=
  zscaleFit (trimSortedSpec ((input_img.flatten).filterMap id)) contrast

/-- The relation "the second list is the first with NaN entries inserted at
arbitrary positions". -/
inductive InsertNaNs : List (Option ℚ) → List (Option ℚ) → Prop
  | nil : InsertNaNs [] []
  | cons (a : Option ℚ) {l l' : List (Option ℚ)} :
      InsertNaNs l l' → InsertNaNs (a :: l) (a :: l')
  | nan {l l' : List (Option ℚ)} :
      InsertNaNs l l' → InsertNaNs l (none :: l')

lemma InsertNaNs.filterMap_eq {l l' : List (Option ℚ)} (h : InsertNaNs l l') :
    l.filterMap id = l'.filterMap id := by
  induction h with
  | nil => rfl
  | cons a _ ih => cases a <;> simp [List.filterMap_cons, ih]
  | nan _ ih => simp [List.filterMap_cons, ih]

lemma trimSorted_length (samples : List ℚ) :
    (trimSorted samples).length =
      if samples.length / 10 = 0 then 0
      else samples.length - 2 * (samples.length / 10) := by
  have hlen : (List.insertionSort (· ≤ ·) samples).length = samples.length :=
    List.length_insertionSort _ _
  simp only [trimSorted, List.length_drop, List.length_take, hlen]
  rcases Nat.eq_zero_or_pos (samples.length / 10) with h | h
  · simp [h]
  · have h10 : samples.length / 10 * 10 ≤ samples.length := Nat.div_mul_le_self _ _
    have : samples.length / 10 ≠ 0 := Nat.pos_iff_ne_zero.mp h
    simp only [this, if_false]
    omega

/-- With at least 10 finite samples the chop count is positive and the
trimmed subset has at least 8 elements. -/
lemma trimmedSubset_length_ge (input_img : Array2)
    (h10 : 10 ≤ ((input_img.flatten).filterMap id).length) :
    8 ≤ (trimmedSubset input_img).length := by
  set n := ((input_img.flatten).filterMap id).length with hn
  have hchop : 1 ≤ n / 10 := (Nat.one_le_div_iff (by norm_num)).mpr h10
  have hmul : n / 10 * 10 ≤ n := Nat.div_mul_le_self _ _
  have := trimSorted_length ((input_img.flatten).filterMap id)
  rw [← hn] at this
  unfold trimmedSubset
  rw [this]
  have : n / 10 ≠ 0 := by omega
  simp only [this, if_false]
  omega

/-- The four-tuple (getBeginX(), getEndX(), getBeginY(), getEndY()) used as
the matplotlib extent of a panel. -/
abbrev Extent := ℤ × ℤ × ℤ × ℤ

/-- The Python exception kinds this module can raise. -/
inductive PyErr where
  | indexError
  | typeError
  deriving DecidableEq

/-- One rendered raster: exactly the data handed to imshow/title/colorbar
by display2dArray (array, title, extent, the zscale clipping range, and
whether a colorbar was attached). -/
structure Panel where
  title : String
  arr : Array2
  extent : Option Extent
  vmin : ℚ
  vmax : ℚ
  showBars : Bool
  deriving DecidableEq

/-- A composed matplotlib figure: its figsize and its panels in the order
they were drawn. -/
structure Fig where
  figsize : ℚ × ℚ
  panels : List Panel
  deriving DecidableEq

/-- The body of display2dArray once the backend probe has succeeded (every
caller probes the backend before calling it): compute the zscale range and
render the panel; a zscale IndexError propagates. -/
def renderPanel (arr : Array2) (title : String) (showBars : Bool)
    (extent : Option Extent) : Except PyErr Panel :=
  match zscale arr (1/4) with
  | none => .error .indexError
  | some (z1, z2) =>
    .ok { title := title, arr := arr, extent := extent,
          vmin := z1, vmax := z2, showBars := showBars }

/-- Embedding of display2dArray(arr, title='Data', showBars=True,
extent=None) (lines 49-69).  The rendering backend availability (the
matplotlib probe) is the flag plt; when the backend is missing the
function is a silent no-op returning an absent result. -/
def display2dArray (plt : Bool) (arr : Array2) (title : String)
    (showBars : Bool) (extent : Option Extent) : Except PyErr (Option Panel) :=
  if !plt then .ok none
  else (renderPanel arr title showBars extent).map some

lemma renderPanel_ok {arr title showBars extent p}
    (h : renderPanel arr title showBars extent = .ok p) :
    p.title = title ∧ p.arr = arr ∧ p.extent = extent ∧ p.showBars = showBars := by
  unfold renderPanel at h
  rcases hz : zscale arr (1/4) with _ | ⟨z1, z2⟩ <;> rw [hz] at h
  · exact absurd h (by simp)
  · rcases h with ⟨⟩
    exact ⟨rfl, rfl, rfl, rfl⟩

/-- C2.  The claim describes zscale as discarding the lowest and highest
10% of the samples; but for fewer than 10 finite samples the chop count
int(0.10*len) is 0 and the Python slice samples[0:-0] = samples[0:0]
discards everything rather than nothing: the code then fails where the
claimed steps would return a value.  At the concrete input [[1, 2]] the
code returns no value while the claimed steps return (2, 6). -/
theorem zscale_neq_spec_steps_cex :
    zscale [[some 1, some 2]] (1/4) = none ∧
      zscaleSpec [[some 1, some 2]] (1/4) = some (2, 6) := by
  constructor
  · rfl
  · show zscaleFit (trimSortedSpec [1, 2]) (1/4) = some (2, 6)
    have h : trimSortedSpec [1, 2] = [1, 2] := by rfl
    rw [h]
    simp only [zscaleFit, polyfitSlope]
    norm_num [Finset.sum_range_succ, List.get?]

/-- C2 (amended).  For every input with at least 10 finite samples, zscale
follows exactly the claimed steps: flatten, drop NaNs, sort, discard the
lowest and highest 10%, take the median by index, fit the degree-1
least-squares line against (index - center-index), and project the two
bounds scaled by slope/contrast; on fewer than 10 finite samples the
code's slice discards all samples (and zscale fails) instead. -/
theorem zscale_follows_spec_steps (input_img : Array2) (contrast : ℚ)
    (h10 : 10 ≤ ((input_img.flatten).filterMap id).length) :
    zscale input_img contrast = zscaleSpec input_img contrast := by
  unfold zscale zscaleSpec zscaleSamples
  congr 1
  unfold trimSorted trimSortedSpec
  have hlen : (List.insertionSort (· ≤ ·) ((input_img.flatten).filterMap id)).length
      = ((input_img.flatten).filterMap id).length := List.length_insertionSort _ _
  have hchop : (List.insertionSort (· ≤ ·) ((input_img.flatten).filterMap id)).length / 10 ≠ 0 := by
    rw [hlen]
    have : 1 ≤ ((input_img.flatten).filterMap id).length / 10 :=
      (Nat.one_le_div_iff (by norm_num)).mpr h10
    omega
  simp only [hchop, if_false]

/-- C2 (witness for the amended theorem): a concrete input with 10 finite
samples on which zscale agrees with the spec's steps. -/
theorem zscale_follows_spec_steps_witness :
    10 ≤ ((([[some 1, some 2, some 3, some 4, some 5],
             [some 6, some 7, some 8, some 9, some 10]] : Array2).flatten).filterMap id).length ∧
    zscale [[some 1, some 2, some 3, some 4, some 5],
            [some 6, some 7, some 8, some 9, some 10]] (1/4) =
      zscaleSpec [[some 1, some 2, some 3, some 4, some 5],
                  [some 6, some 7, some 8, some 9, some 10]] (1/4) :=
  ⟨by decide, zscale_follows_spec_steps _ (1/4) (by decide)⟩

/-- C3.  zscale is invariant under insertion of NaN entries at arbitrary
positions in the input: NaNs are filtered out before the sort, trim and
fit, so any two inputs whose flattened sequences are related by NaN
insertion give the same result. -/
theorem zscale_nan_insertion_invariant (img img' : Array2) (contrast : ℚ)
    (h : InsertNaNs img.flatten img'.flatten) :
    zscale img contrast = zscale img' contrast := by
  unfold zscale
  rw [h.filterMap_eq]

/-- C3 (witness): inserting a NaN in the middle of a concrete input leaves
the zscale result unchanged. -/
theorem zscale_nan_insertion_invariant_witness :
    InsertNaNs ([[some 1, some 2]] : Array2).flatten
        ([[some 1, none], [some 2]] : Array2).flatten ∧
    zscale [[some 1, some 2]] (1/4) = zscale [[some 1, none], [some 2]] (1/4) := by
  have h : InsertNaNs ([[some 1, some 2]] : Array2).flatten
      ([[some 1, none], [some 2]] : Array2).flatten :=
    .cons (some 1) (.nan (.cons (some 2) .nil))
  exact ⟨h, zscale_nan_insertion_invariant _ _ (1/4) h⟩

/-- C4.  Whenever the trimmed subset has fewer than 2 elements (entirely
NaN input, or too few finite samples to trim), zscale fails - it returns
no value, for every contrast - rather than returning a degenerate range,
and the failure propagates uncaught through the calling renderer
display2dArray, which recovers nothing. -/
theorem zscale_fails_on_degenerate_trim (input_img : Array2) (contrast : ℚ)
    (title : String) (showBars : Bool) (extent : Option Extent)
    (h : (trimmedSubset input_img).length < 2) :
    zscale input_img contrast = none ∧
      display2dArray true input_img title showBars extent = .error .indexError := by
  have hnil : trimmedSubset input_img = [] := by
    apply List.length_eq_zero.mp
    have hlen := trimSorted_length ((input_img.flatten).filterMap id)
    unfold trimmedSubset at h ⊢
    rw [hlen] at h ⊢
    rcases Nat.eq_zero_or_pos (((input_img.flatten).filterMap id).length / 10) with h0 | h0
    · rw [if_pos h0]
    · have h0' : ¬ ((input_img.flatten).filterMap id).length / 10 = 0 := by omega
      have hmul : ((input_img.flatten).filterMap id).length / 10 * 10 ≤
          ((input_img.flatten).filterMap id).length := Nat.div_mul_le_self _ _
      rw [if_neg h0'] at h ⊢
      omega
  have hz : ∀ c : ℚ, zscale input_img c = none := by
    intro c
    show zscaleFit (trimmedSubset input_img) c = none
    rw [hnil]
    rfl
  refine ⟨hz contrast, ?_⟩
  show (renderPanel input_img title showBars extent).map some = .error .indexError
  unfold renderPanel
  rw [hz (1/4)]
  rfl

/-- C4 (witness): the entirely-NaN input [[none]] has an empty trimmed
subset; zscale fails on it and display2dArray propagates the failure. -/
theorem zscale_fails_on_degenerate_trim_witness :
    (trimmedSubset [[none]]).length < 2 ∧
      (zscale [[none]] (1/4) = none ∧
        display2dArray true [[none]] "Data" true none = .error .indexError) :=
  ⟨by decide, zscale_fails_on_degenerate_trim [[none]] (1/4) "Data" true none (by decide)⟩

lemma sorted_getD_mono {l : List ℚ} (h : l.Sorted (· ≤ ·)) {i j : ℕ}
    (hij : i ≤ j) (hj : j < l.length) : l.getD i 0 ≤ l.getD j 0 := by
  have hi : i < l.length := lt_of_le_of_lt hij hj
  rw [List.getD_eq_get l 0 hi, List.getD_eq_get l 0 hj]
  exact List.Sorted.rel_get_of_le h hij

/-- The least-squares slope fitted to a sorted (ascending) list of samples
is nonnegative, whatever the centering constant: the numerator is
Chebyshev's sum inequality, the denominator Cauchy-Schwarz. -/
lemma polyfitSlope_nonneg (ys : List ℚ) (hs : ys.Sorted (· ≤ ·)) (c : ℚ) :
    0 ≤ polyfitSlope ys c := by
  have heq : polyfitSlope ys c =
      (((ys.length : ℚ)) * (∑ i ∈ Finset.range ys.length, ((i : ℚ) - c) * ys.getD i 0)
        - (∑ i ∈ Finset.range ys.length, ((i : ℚ) - c))
            * (∑ i ∈ Finset.range ys.length, ys.getD i 0))
      / (((ys.length : ℚ)) * (∑ i ∈ Finset.range ys.length, ((i : ℚ) - c) ^ 2)
        - (∑ i ∈ Finset.range ys.length, ((i : ℚ) - c)) ^ 2) := rfl
  rw [heq]
  apply div_nonneg
  · rw [sub_nonneg]
    have hmono : MonovaryOn (fun i : ℕ => (i : ℚ) - c)
        (fun i : ℕ => ys.getD i 0) ↑(Finset.range ys.length) := by
      intro i hi j hj hg
      have hij : i ≤ j := by
        by_contra hlt
        push_neg at hlt
        simp only [Finset.coe_range, Set.mem_Iio] at hi
        exact absurd hg (not_lt.mpr (sorted_getD_mono hs hlt.le hi))
      exact sub_le_sub_right (by exact_mod_cast hij) c
    have := hmono.sum_mul_sum_le_card_mul_sum
    simpa using this
  · rw [sub_nonneg]
    have := @sq_sum_le_card_mul_sum_sq ℕ ℚ _ _ (Finset.range ys.length)
      (fun i : ℕ => (i : ℚ) - c)
    simpa using this

lemma zscaleFit_eq_of_get {subset : List ℚ} {contrast med : ℚ}
    (hget : subset.get? (subset.length / 2) = some med) :
    zscaleFit subset contrast = some
      (med + polyfitSlope subset ((subset.length / 2 : ℕ) : ℚ) / contrast
          * (1 - ((subset.length / 2 : ℕ) : ℚ)),
       med + polyfitSlope subset ((subset.length / 2 : ℕ) : ℚ) / contrast
          * ((subset.length : ℚ) - ((subset.length / 2 : ℕ) : ℚ))) := by
  simp only [zscaleFit]
  rw [hget]

lemma trimmedSubset_sorted (input_img : Array2) :
    (trimmedSubset input_img).Sorted (· ≤ ·) := by
  have h1 : List.Sorted (· ≤ ·)
      (List.insertionSort (· ≤ ·) ((input_img.flatten).filterMap id)) :=
    List.sorted_insertionSort _ _
  apply List.Pairwise.sublist _ h1
  unfold trimmedSubset trimSorted
  exact (List.drop_sublist _ _).trans (List.take_sublist _ _)

/-- C1.  For every 2-D input whose finite (non-NaN) samples form a
non-constant distribution of length at least 10, and every positive
contrast, zscale returns a pair (z1, z2) with z1 <= z2: after the 10% trim
at least 8 sorted samples remain, the least-squares slope over a sorted
list is nonnegative, and z2 - z1 = slope/contrast * (length - 1) >= 0. -/
theorem zscale_low_le_high (input_img : Array2) (contrast : ℚ)
    (hc : 0 < contrast)
    (h10 : 10 ≤ ((input_img.flatten).filterMap id).length)
    (hnc : ∃ a ∈ (input_img.flatten).filterMap id,
             ∃ b ∈ (input_img.flatten).filterMap id, a ≠ b) :
    ∃ z1 z2, zscale input_img contrast = some (z1, z2) ∧ z1 ≤ z2 := by
  have h8 := trimmedSubset_length_ge input_img h10
  have hm : 0 < (trimmedSubset input_img).length := by omega
  have hmid : (trimmedSubset input_img).length / 2 < (trimmedSubset input_img).length :=
    Nat.div_lt_self hm (by norm_num)
  have hget : (trimmedSubset input_img).get? ((trimmedSubset input_img).length / 2) =
      some ((trimmedSubset input_img).get ⟨(trimmedSubset input_img).length / 2, hmid⟩) :=
    List.get?_eq_get hmid
  have hzf : zscaleFit (trimmedSubset input_img) contrast = _ := zscaleFit_eq_of_get hget
  refine ⟨_, _, hzf, ?_⟩
  have hslope : 0 ≤ polyfitSlope (trimmedSubset input_img)
      (((trimmedSubset input_img).length / 2 : ℕ) : ℚ) :=
    polyfitSlope_nonneg _ (trimmedSubset_sorted input_img) _
  have hfac : 0 ≤ polyfitSlope (trimmedSubset input_img)
      (((trimmedSubset input_img).length / 2 : ℕ) : ℚ) / contrast :=
    div_nonneg hslope hc.le
  apply add_le_add_left
  apply mul_le_mul_of_nonneg_left _ hfac
  have h1m : (1 : ℚ) ≤ ((trimmedSubset input_img).length : ℚ) := by
    exact_mod_cast hm
  linarith

/-- C1 (witness): a concrete strictly increasing input of 10 finite
samples, on which zscale returns an ordered pair. -/
theorem zscale_low_le_high_witness :
    (0 : ℚ) < 1/4 ∧
    10 ≤ ((([[some 1, some 2, some 3, some 4, some 5,
              some 6, some 7, some 8, some 9, some 10]] : Array2).flatten).filterMap id).length ∧
    (∃ a ∈ (([[some 1, some 2, some 3, some 4, some 5,
               some 6, some 7, some 8, some 9, some 10]] : Array2).flatten).filterMap id,
       ∃ b ∈ (([[some 1, some 2, some 3, some 4, some 5,
                 some 6, some 7, some 8, some 9, some 10]] : Array2).flatten).filterMap id,
         a ≠ b) ∧
    ∃ z1 z2, zscale [[some 1, some 2, some 3, some 4, some 5,
                      some 6, some 7, some 8, some 9, some 10]] (1/4) = some (z1, z2) ∧ z1 ≤ z2 := by
  refine ⟨by norm_num, by decide, ?_, ?_⟩
  · refine ⟨1, by decide, 2, by decide, by norm_num⟩
  · exact zscale_low_le_high _ (1/4) (by norm_num) (by decide)
      ⟨1, by decide, 2, by decide, by norm_num⟩

/-- An integer bounding box in begin/end form, as read off through
getBeginX()/getEndX()/getBeginY()/getEndY(). -/
structure Box where
  beginX : ℤ
  endX : ℤ
  beginY : ℤ
  endY : ℤ
  deriving DecidableEq

/-- The 4-tuple (bbox.getBeginX(), bbox.getEndX(), bbox.getBeginY(),
bbox.getEndY()) the display functions pass as extent. -/
def Box.extent (b : Box) : Extent := (b.beginX, b.endX, b.beginY, b.endY)

/-- Box2I.contains(Point2I): the point lies within the box. -/
def Box.containsI (b : Box) (x y : ℤ) : Bool :=
  decide (b.beginX ≤ x ∧ x < b.endX ∧ b.beginY ≤ y ∧ y < b.endY)

/-- bbox.grow(g): grow the box symmetrically by g. -/
def Box.grow (b : Box) (g : ℤ) : Box :=
  { beginX := b.beginX - g, endX := b.endX + g
  , beginY := b.beginY - g, endY := b.endY + g }

/-- A pixel plane: value at integer coordinates; `none` is NaN. -/
abbrev Plane := ℤ → ℤ → Option ℚ

/-- getArray() of a plane restricted to a box: row-major rows starting at
beginY, each row from beginX. -/
def getArray2 (pix : Plane) (b : Box) : Array2 :=
  (List.range (b.endY - b.beginY).toNat).map (fun j =>
    (List.range (b.endX - b.beginX).toNat).map (fun i =>
      pix (b.beginX + i) (b.beginY + j)))

/-- An afw image-like object: a bounding box and a pixel view. -/
structure Img where
  bbox : Box
  pix : Plane

/-- image.getArray(). -/
def Img.getArray (im : Img) : Array2 := getArray2 im.pix im.bbox

/-- An afw masked-image-like object: three aligned planes sharing one
bounding box, in getArrays() order data, mask, variance. -/
structure MaskedImg where
  bbox : Box
  image : Plane
  mask : Plane
  variance : Plane

/-- An afw footprint: a span (exact pixel) set with its bounding box,
a heaviness flag, and - when heavy - the stored per-pixel values. -/
structure Footprint where
  isHeavy : Bool
  pixels : Finset (ℤ × ℤ)
  bbox : Box
  values : Plane

/-- An afw exposure-like object: its masked image and the image its
point-spread-function model renders (getPsf().computeImage()). -/
structure Exposure where
  maskedImage : MaskedImg
  psfImage : Img

/-- A source record: owns one footprint. -/
structure SrcRecord where
  footprint : Footprint

/-- afwDet.HeavyFootprintF(fp, maskedImage): a heavy footprint with fp's
span set and bounding box whose stored values are copied from the masked
image's data plane. -/
def HeavyFootprintF (fp : Footprint) (mi : MaskedImg) : Footprint :=
  { isHeavy := true, pixels := fp.pixels, bbox := fp.bbox, values := mi.image }

/-- afwImage.ImageF(parentImage, bbox, afwImage.PARENT): a subimage view of
the parent pixels at the given box, in parent coordinates. -/
def subImage (parentPix : Plane) (bbox : Box) : Img :=
  { bbox := bbox, pix := parentPix }

/-- Embedding of getHeavyFootprintSubimage(fp, badfill=np.nan, grow=0)
(lines 235-244): an image over the footprint's (possibly grown) bounding
box, pre-filled with badfill, into which afwDet.expandArray writes the
heavy footprint's stored values at its exact pixel set. -/
def getHeavyFootprintSubimage (fp : Footprint) (badfill : Option ℚ) (grow : ℤ) : Img :=
  let bbox := if grow > 0 then fp.bbox.grow grow else fp.bbox
  { bbox := bbox
  , pix := fun x y => if (x, y) ∈ fp.pixels then fp.values x y else badfill }

/-- One cutout extracted by displayCutouts: a plain rectangular subimage of
the exposure's data plane at the footprint's bounding box, or - in
heavy-footprint mode - the heavy expansion with NaN outside the footprint
(badfill and grow left at their defaults np.nan and 0). -/
def cutoutOf (fp : Footprint) (bbox : Box) (asHeavyFootprint : Bool) (e : Exposure) : Img :=
  if !asHeavyFootprint then subImage e.maskedImage.image bbox
  else getHeavyFootprintSubimage (HeavyFootprintF fp e.maskedImage) none 0

/-- Embedding of displayCutouts(source, exposure, posImage=None,
negImage=None, asHeavyFootprint=False, title='', figsize=(8, 2.5))
(lines 171-219): one panel per supplied exposure, left to right Diffim,
Pos, Neg, all sharing the footprint's bounding-box extent. -/
def displayCutouts (plt : Bool) (source : SrcRecord) (exposure : Exposure)
    (posImage negImage : Option Exposure) (asHeavyFootprint : Bool)
    (title : String) (figsize : ℚ × ℚ) : Except PyErr (Option Fig) :=
  if !plt then .ok none else
  let fp := source.footprint
  let bbox := fp.bbox
  let extent := bbox.extent
  do
    let p1 ← renderPanel (cutoutOf fp bbox asHeavyFootprint exposure).getArray
        (title ++ " Diffim") true (some extent)
    let ps2 ← match posImage with
      | none => pure []
      | some posI => do
          let p ← renderPanel (cutoutOf fp bbox asHeavyFootprint posI).getArray
              (title ++ " Pos") true (some extent)
          pure [p]
    let ps3 ← match negImage with
      | none => pure []
      | some negI => do
          let p ← renderPanel (cutoutOf fp bbox asHeavyFootprint negI).getArray
              (title ++ " Neg") true (some extent)
          pure [p]
    pure (some { figsize := figsize, panels := p1 :: (ps2 ++ ps3) })

/-- Embedding of displayMaskedImage(maskedImage, showMasks=True,
showVariance=False, showBars=True, width=8, height=2.5) (lines 109-139):
data panel always, then masks and variance panels when requested, all
sharing the masked image's bounding-box extent. -/
def displayMaskedImage (plt : Bool) (maskedImage : MaskedImg)
    (showMasks showVariance showBars : Bool) (width height : ℚ) :
    Except PyErr (Option Fig) :=
  if !plt then .ok none else
  let extent := maskedImage.bbox.extent
  do
    let p1 ← renderPanel (getArray2 maskedImage.image maskedImage.bbox)
        "Data" showBars (some extent)
    let ps2 ← if showMasks then do
        let p ← renderPanel (getArray2 maskedImage.mask maskedImage.bbox)
            "Masks" showBars (some extent)
        pure [p]
      else pure []
    let ps3 ← if showVariance then do
        let p ← renderPanel (getArray2 maskedImage.variance maskedImage.bbox)
            "Variance" showBars (some extent)
        pure [p]
      else pure []
    pure (some { figsize := (width, height), panels := p1 :: (ps2 ++ ps3) })

/-- Embedding of displayExposure(exposure, showMasks=True,
showVariance=False, showPsf=False, showBars=True, width=8, height=2.5)
(lines 142-168).  Note the source calls displayMaskedImage with
showVariance=not showPsf: its own showVariance parameter is never read.
When showPsf is set a PSF panel is drawn into the same figure with the
PSF image's own bounding-box extent. -/
def displayExposure (plt : Bool) (exposure : Exposure)
    (showMasks showVariance showPsf showBars : Bool) (width height : ℚ) :
    Except PyErr (Option Fig) :=
  if !plt then .ok none else
  do
    let figO ← displayMaskedImage plt exposure.maskedImage showMasks
        (!showPsf) showBars width height
    match figO with
    | none => pure none
    | some fig =>
      if showPsf then do
        let psfIm := exposure.psfImage
        let p ← renderPanel psfIm.getArray "PSF" showBars (some psfIm.bbox.extent)
        pure (some { fig with panels := fig.panels ++ [p] })
      else pure (some fig)

/-- A Python argument that is either a bare afw image object or a tuple of
images.  An afw image object is not iterable, so running enumerate() over
it raises TypeError; a tuple yields its elements in order. -/
inductive PyImgArg where
  | single (img : Img)
  | tuple (imgs : List Img)

/-- The result of iterating (enumerate) over the images argument. -/
def pyIterImages : PyImgArg → Option (List Img)
  | .single _ => none
  | .tuple l => some l

/-- Embedding of displayImages(images, showBars=True, width=8, height=2.5)
(lines 81-106): one "Data" panel per image, each with its own
bounding-box-derived extent. -/
def displayImages (plt : Bool) (images : PyImgArg) (showBars : Bool)
    (width height : ℚ) : Except PyErr (Option Fig) :=
  if !plt then .ok none else
  match pyIterImages images with
  | none => .error .typeError
  | some l => do
      let ps ← l.mapM (fun image =>
        renderPanel image.getArray "Data" showBars (some image.bbox.extent))
      pure (some { figsize := (width, height), panels := ps })

/-- Embedding of displayImage(image, showBars=True, width=8, height=2.5)
(lines 72-78).  The source forwards (image) - a parenthesised bare image,
not the one-element tuple (image,) - as the images argument, and hard-codes
showBars=True, width=8, height=2.5 regardless of its own parameters. -/
def displayImage (plt : Bool) (image : Img) (showBars : Bool)
    (width height : ℚ) : Except PyErr (Option Fig) :=
  displayImages plt (.single image) true 8 (5/2)

/-- The loop of makeHeavyCatalog, carrying the enumerate index: each
record whose footprint is not yet heavy has it replaced in place by
HeavyFootprintF(fp, exposure.getMaskedImage()), with a diagnostic line
when verbose. -/
def makeHeavyCatalogGo (exposure : Exposure) (verbose : Bool) :
    ℕ → List SrcRecord → List SrcRecord × List String
  | _, [] => ([], [])
  | i, s :: rest =>
    let tail := makeHeavyCatalogGo exposure verbose (i + 1) rest
    if s.footprint.isHeavy then (s :: tail.1, tail.2)
    else
      ({ footprint := HeavyFootprintF s.footprint exposure.maskedImage } :: tail.1,
        (if verbose then [toString i ++ " not heavy => heavy"] else []) ++ tail.2)

/-- Embedding of makeHeavyCatalog(catalog, exposure, verbose=False)
(lines 222-232).  The catalog is mutated in place and returned; the model
returns the catalog after mutation together with the printed lines. -/
def makeHeavyCatalog (catalog : List SrcRecord) (exposure : Exposure)
    (verbose : Bool) : List SrcRecord × List String :=
  makeHeavyCatalogGo exposure verbose 0 catalog

/-- Python int() on a float: truncation toward zero. -/
def pyInt (q : ℚ) : ℤ := if 0 ≤ q then ⌊q⌋ else ⌈q⌉

/-- Embedding of searchCatalog(catalog, x, y) (lines 247-258): linear scan
in insertion order; for each record try
bbox.contains(afwGeom.Point2D(x, y)) - whose behaviour the geometry
library determines, modelled by the abstract containsD, with `none`
standing for a raised exception - and on failure fall back to
bbox.contains(afwGeom.Point2I(int(x), int(y))).  The printed index side
effect is not modelled. -/
def searchCatalog (containsD : Box → ℚ → ℚ → Option Bool)
    (catalog : List SrcRecord) (x y : ℚ) : Option SrcRecord :=
  match catalog with
  | [] => none
  | s :: rest =>
    match containsD s.footprint.bbox x y with
    | some true => some s
    | some false => searchCatalog containsD rest x y
    | none =>
      if s.footprint.bbox.containsI (pyInt x) (pyInt y) then some s
      else searchCatalog containsD rest x y

/-- Modelled from the spec: what it means for a record's footprint
bounding box to contain the query point - floating-point containment
attempted first, integer containment of the truncated point used when the
floating-point attempt fails. -/
def pointHits (containsD : Box → ℚ → ℚ → Option Bool) (b : Box) (x y : ℚ) : Bool :=
  match containsD b x y with
  | some bl => bl
  | none => b.containsI (pyInt x) (pyInt y)

/-- C10 (code bug).  displayImage is claimed to render its single image as
one panel; but the source forwards the parenthesised expression (image) -
the bare, non-iterable image object, not the one-element tuple (image,) -
so displayImages raises TypeError from enumerate() whenever the rendering
backend is available, and renders nothing.  Only the backend-absent path
returns the documented absent result. -/
theorem displayImage_raises_typeError (image : Img) (showBars : Bool)
    (width height : ℚ) :
    displayImage true image showBars width height = .error .typeError ∧
      displayImage false image showBars width height = .ok none :=
  ⟨rfl, rfl⟩

/-- C7.  searchCatalog scans the catalog in insertion order and returns
the first record whose footprint bounding box contains the query point -
floating-point containment attempted first, integer containment of the
truncated point on failure of the floating-point attempt - and an absent
result when no record's box contains it; this holds for every behaviour
of the geometry library's floating-point containment. -/
theorem searchCatalog_finds_first (containsD : Box → ℚ → ℚ → Option Bool)
    (catalog : List SrcRecord) (x y : ℚ) :
    searchCatalog containsD catalog x y =
      catalog.find? (fun s => pointHits containsD s.footprint.bbox x y) := by
  induction catalog with
  | nil => rfl
  | cons s rest ih =>
    cases h : containsD s.footprint.bbox x y with
    | none =>
      cases hI : s.footprint.bbox.containsI (pyInt x) (pyInt y) with
      | false => simp [searchCatalog, List.find?_cons, pointHits, h, hI, ih]
      | true => simp [searchCatalog, List.find?_cons, pointHits, h, hI]
    | some b =>
      cases b with
      | true => simp [searchCatalog, List.find?_cons, pointHits, h]
      | false => simp [searchCatalog, List.find?_cons, pointHits, h, ih]

lemma makeHeavyCatalogGo_all_heavy (exposure : Exposure) (verbose : Bool) :
    ∀ (i : ℕ) (catalog : List SrcRecord),
      ∀ s ∈ (makeHeavyCatalogGo exposure verbose i catalog).1,
        s.footprint.isHeavy = true := by
  intro i catalog
  induction catalog generalizing i with
  | nil => intro s hs; simp [makeHeavyCatalogGo] at hs
  | cons a rest ih =>
    intro s hs
    by_cases ha : a.footprint.isHeavy
    · simp only [makeHeavyCatalogGo, ha, if_true] at hs
      rcases List.mem_cons.mp hs with h1 | h1
      · rw [h1]; exact ha
      · exact ih (i + 1) s h1
    · simp only [makeHeavyCatalogGo, ha, if_false] at hs
      rcases List.mem_cons.mp hs with h1 | h1
      · rw [h1]; rfl
      · exact ih (i + 1) s h1

lemma makeHeavyCatalogGo_noop (exposure : Exposure) (verbose : Bool) :
    ∀ (i : ℕ) (catalog : List SrcRecord),
      (∀ s ∈ catalog, s.footprint.isHeavy = true) →
      makeHeavyCatalogGo exposure verbose i catalog = (catalog, []) := by
  intro i catalog
  induction catalog generalizing i with
  | nil => intro _; rfl
  | cons a rest ih =>
    intro hall
    have ha : a.footprint.isHeavy = true := hall a (by simp)
    have hrest := ih (i + 1) (fun s hs => hall s (by simp [hs]))
    simp [makeHeavyCatalogGo, ha, hrest]

/-- C6.  After one run of makeHeavyCatalog every record's footprint is
heavy, and a second run on the resulting catalog - with any verbosity -
performs no further footprint replacement and prints no diagnostics: it
returns the catalog unchanged.  (In-place mutation is modelled by
returning the mutated catalog; "same object" identity is not observable
in the model.) -/
theorem makeHeavyCatalog_idempotent (catalog : List SrcRecord)
    (exposure : Exposure) (v v' : Bool) :
    (∀ s ∈ (makeHeavyCatalog catalog exposure v).1, s.footprint.isHeavy = true) ∧
    makeHeavyCatalog (makeHeavyCatalog catalog exposure v).1 exposure v' =
      ((makeHeavyCatalog catalog exposure v).1, ([] : List String)) := by
  refine ⟨makeHeavyCatalogGo_all_heavy exposure v 0 catalog, ?_⟩
  exact makeHeavyCatalogGo_noop exposure v' 0 _
    (makeHeavyCatalogGo_all_heavy exposure v 0 catalog)

lemma displayCutouts_ok_parts {source : SrcRecord} {exposure : Exposure}
    {posImage negImage : Option Exposure} {hv : Bool} {title : String}
    {figsize : ℚ × ℚ} {fig : Fig}
    (h : displayCutouts true source exposure posImage negImage hv title figsize
        = .ok (some fig)) :
    fig.figsize = figsize ∧
    fig.panels.map Panel.arr =
      (exposure :: (posImage.toList ++ negImage.toList)).map
        (fun e => (cutoutOf source.footprint source.footprint.bbox hv e).getArray) ∧
    fig.panels.map Panel.title =
      (title ++ " Diffim") :: (posImage.toList.map (fun _ => title ++ " Pos")
        ++ negImage.toList.map (fun _ => title ++ " Neg")) ∧
    ∀ p ∈ fig.panels, p.extent = some source.footprint.bbox.extent := by
  cases posImage with
  | none =>
    cases negImage with
    | none =>
      simp only [displayCutouts, Bool.not_true, Bool.false_eq_true, if_false] at h
      cases hp1 : renderPanel
          (cutoutOf source.footprint source.footprint.bbox hv exposure).getArray
          (title ++ " Diffim") true (some source.footprint.bbox.extent) with
      | error e => rw [hp1] at h; exact Except.noConfusion h
      | ok p1 =>
        rw [hp1] at h
        obtain rfl := Option.some.inj (Except.ok.inj h)
        obtain ⟨ht1, ha1, he1, -⟩ := renderPanel_ok hp1
        refine ⟨rfl, by simp [ha1], by simp [ht1], ?_⟩
        intro p hp
        obtain rfl := List.mem_singleton.mp hp
        exact he1
    | some negI =>
      simp only [displayCutouts, Bool.not_true, Bool.false_eq_true, if_false] at h
      cases hp1 : renderPanel
          (cutoutOf source.footprint source.footprint.bbox hv exposure).getArray
          (title ++ " Diffim") true (some source.footprint.bbox.extent) with
      | error e => rw [hp1] at h; exact Except.noConfusion h
      | ok p1 =>
        rw [hp1] at h
        cases hp3 : renderPanel
            (cutoutOf source.footprint source.footprint.bbox hv negI).getArray
            (title ++ " Neg") true (some source.footprint.bbox.extent) with
        | error e => rw [hp3] at h; exact Except.noConfusion h
        | ok p3 =>
          rw [hp3] at h
          obtain rfl := Option.some.inj (Except.ok.inj h)
          obtain ⟨ht1, ha1, he1, -⟩ := renderPanel_ok hp1
          obtain ⟨ht3, ha3, he3, -⟩ := renderPanel_ok hp3
          refine ⟨rfl, by simp [ha1, ha3], by simp [ht1, ht3], ?_⟩
          intro p hp
          simp only [List.nil_append, List.append_nil, List.cons_append, List.mem_cons,
              List.mem_singleton, List.not_mem_nil, or_false] at hp
          rcases hp with rfl | rfl
          · exact he1
          · exact he3
  | some posI =>
    cases negImage with
    | none =>
      simp only [displayCutouts, Bool.not_true, Bool.false_eq_true, if_false] at h
      cases hp1 : renderPanel
          (cutoutOf source.footprint source.footprint.bbox hv exposure).getArray
          (title ++ " Diffim") true (some source.footprint.bbox.extent) with
      | error e => rw [hp1] at h; exact Except.noConfusion h
      | ok p1 =>
        rw [hp1] at h
        cases hp2 : renderPanel
            (cutoutOf source.footprint source.footprint.bbox hv posI).getArray
            (title ++ " Pos") true (some source.footprint.bbox.extent) with
        | error e => rw [hp2] at h; exact Except.noConfusion h
        | ok p2 =>
          rw [hp2] at h
          obtain rfl := Option.some.inj (Except.ok.inj h)
          obtain ⟨ht1, ha1, he1, -⟩ := renderPanel_ok hp1
          obtain ⟨ht2, ha2, he2, -⟩ := renderPanel_ok hp2
          refine ⟨rfl, by simp [ha1, ha2], by simp [ht1, ht2], ?_⟩
          intro p hp
          simp only [List.nil_append, List.append_nil, List.cons_append, List.mem_cons,
              List.mem_singleton, List.not_mem_nil, or_false] at hp
          rcases hp with rfl | rfl
          · exact he1
          · exact he2
    | some negI =>
      simp only [displayCutouts, Bool.not_true, Bool.false_eq_true, if_false] at h
      cases hp1 : renderPanel
          (cutoutOf source.footprint source.footprint.bbox hv exposure).getArray
          (title ++ " Diffim") true (some source.footprint.bbox.extent) with
      | error e => rw [hp1] at h; exact Except.noConfusion h
      | ok p1 =>
        rw [hp1] at h
        cases hp2 : renderPanel
            (cutoutOf source.footprint source.footprint.bbox hv posI).getArray
            (title ++ " Pos") true (some source.footprint.bbox.extent) with
        | error e => rw [hp2] at h; exact Except.noConfusion h
        | ok p2 =>
          rw [hp2] at h
          cases hp3 : renderPanel
              (cutoutOf source.footprint source.footprint.bbox hv negI).getArray
              (title ++ " Neg") true (some source.footprint.bbox.extent) with
          | error e => rw [hp3] at h; exact Except.noConfusion h
          | ok p3 =>
            rw [hp3] at h
            obtain rfl := Option.some.inj (Except.ok.inj h)
            obtain ⟨ht1, ha1, he1, -⟩ := renderPanel_ok hp1
            obtain ⟨ht2, ha2, he2, -⟩ := renderPanel_ok hp2
            obtain ⟨ht3, ha3, he3, -⟩ := renderPanel_ok hp3
            refine ⟨rfl, by simp [ha1, ha2, ha3], by simp [ht1, ht2, ht3], ?_⟩
            intro p hp
            simp only [List.nil_append, List.append_nil, List.cons_append, List.mem_cons,
              List.mem_singleton, List.not_mem_nil, or_false] at hp
            rcases hp with rfl | rfl | rfl
            · exact he1
            · exact he2
            · exact he3

/-- C5.  When displayCutouts runs in heavy-footprint mode and produces a
figure, the rendered arrays are exactly the heavy cutouts of the supplied
exposures, and every pixel of such a cutout is the corresponding
exposure's data-plane value inside the footprint's exact pixel set and
NaN outside it. -/
theorem displayCutouts_heavy_footprint_pixels
    (source : SrcRecord) (exposure : Exposure) (posImage negImage : Option Exposure)
    (title : String) (figsize : ℚ × ℚ) (fig : Fig)
    (h : displayCutouts true source exposure posImage negImage true title figsize
        = .ok (some fig)) :
    fig.panels.map Panel.arr =
      (exposure :: (posImage.toList ++ negImage.toList)).map
        (fun e => (cutoutOf source.footprint source.footprint.bbox true e).getArray) ∧
    ∀ (e : Exposure) (x y : ℤ),
      (cutoutOf source.footprint source.footprint.bbox true e).pix x y =
        if (x, y) ∈ source.footprint.pixels then e.maskedImage.image x y
        else none := by
  refine ⟨(displayCutouts_ok_parts h).2.1, ?_⟩
  intro e x y
  rfl

/-- C8.  A figure produced by displayCutouts has exactly
1 + (number of supplied secondary exposures) panels: a Diffim panel
always, a Pos panel iff posImage is supplied, a Neg panel iff negImage is
supplied, with no placeholder panel for an absent secondary, and all
panels share the footprint's bounding box as extent. -/
theorem displayCutouts_panel_layout
    (source : SrcRecord) (exposure : Exposure) (posImage negImage : Option Exposure)
    (hv : Bool) (title : String) (figsize : ℚ × ℚ) (fig : Fig)
    (h : displayCutouts true source exposure posImage negImage hv title figsize
        = .ok (some fig)) :
    fig.panels.length
        = 1 + (if posImage.isSome then 1 else 0) + (if negImage.isSome then 1 else 0) ∧
    fig.panels.map Panel.title
        = [title ++ " Diffim"] ++ (if posImage.isSome then [title ++ " Pos"] else [])
            ++ (if negImage.isSome then [title ++ " Neg"] else []) ∧
    ∀ p ∈ fig.panels, p.extent = some source.footprint.bbox.extent := by
  obtain ⟨-, -, htitle, hext⟩ := displayCutouts_ok_parts h
  refine ⟨?_, ?_, hext⟩
  · have hlen := congrArg List.length htitle
    simp only [List.length_map] at hlen
    rw [hlen]
    cases posImage <;> cases negImage <;> simp
  · rw [htitle]
    cases posImage <;> cases negImage <;> simp

/-- A 10-pixel-wide, 1-pixel-high test box. -/
def zBox : Box := { beginX := 0, endX := 10, beginY := 0, endY := 1 }

/-- An everywhere-zero pixel plane. -/
def zPlane : Plane := fun _ _ => some 0

/-- A zero-valued masked image on the test box. -/
def zMI : MaskedImg := { bbox := zBox, image := zPlane, mask := zPlane, variance := zPlane }

/-- A zero-valued exposure on the test box. -/
def zExp : Exposure := { maskedImage := zMI, psfImage := { bbox := zBox, pix := zPlane } }

/-- The array of the test box under the zero plane: one row of ten zeros. -/
def zArr : Array2 :=
  [[some 0, some 0, some 0, some 0, some 0, some 0, some 0, some 0, some 0, some 0]]

/-- The footprint covering the whole test box, not yet heavy. -/
def zFp : Footprint :=
  { isHeavy := false
  , pixels := {((0 : ℤ), (0 : ℤ)), (1, 0), (2, 0), (3, 0), (4, 0),
               (5, 0), (6, 0), (7, 0), (8, 0), (9, 0)}
  , bbox := zBox
  , values := fun _ _ => none }

lemma zscale_zArr : zscale zArr (1/4) = some (0, 0) := by
  show zscaleFit (trimSorted [0, 0, 0, 0, 0, 0, 0, 0, 0, 0]) (1/4) = some (0, 0)
  have h : trimSorted [0, 0, 0, 0, 0, 0, 0, 0, 0, 0] = [0, 0, 0, 0, 0, 0, 0, 0] := by rfl
  rw [h]
  simp only [zscaleFit, polyfitSlope]
  norm_num [Finset.sum_range_succ, List.get?]

lemma renderPanel_zArr (t : String) (sb : Bool) (ext : Option Extent) :
    renderPanel zArr t sb ext = .ok
      { title := t, arr := zArr, extent := ext, vmin := 0, vmax := 0, showBars := sb } := by
  unfold renderPanel
  rw [zscale_zArr]

/-- Evaluation of a one-exposure displayCutouts run, given the zscale
range of its only cutout. -/
lemma displayCutouts_single_run (src : SrcRecord) (e : Exposure) (hv : Bool)
    (t : String) (fs : ℚ × ℚ) (z1 z2 : ℚ)
    (hz : zscale (cutoutOf src.footprint src.footprint.bbox hv e).getArray (1/4)
        = some (z1, z2)) :
    displayCutouts true src e none none hv t fs =
      .ok (some { figsize := fs
                , panels := [{ title := t ++ " Diffim"
                             , arr := (cutoutOf src.footprint src.footprint.bbox hv e).getArray
                             , extent := some src.footprint.bbox.extent
                             , vmin := z1, vmax := z2, showBars := true }] }) := by
  simp only [displayCutouts, Bool.not_true, Bool.false_eq_true, if_false]
  have hr : renderPanel (cutoutOf src.footprint src.footprint.bbox hv e).getArray
      (t ++ " Diffim") true (some src.footprint.bbox.extent) = .ok
        { title := t ++ " Diffim"
        , arr := (cutoutOf src.footprint src.footprint.bbox hv e).getArray
        , extent := some src.footprint.bbox.extent
        , vmin := z1, vmax := z2, showBars := true } := by
    unfold renderPanel
    rw [hz]
  rw [hr]
  rfl

lemma cutout_plain_zExp :
    (cutoutOf zFp zBox false zExp).getArray = zArr := by rfl

lemma cutout_heavy_zExp :
    (cutoutOf zFp zBox true zExp).getArray = zArr := by rfl

/-- The figure produced by a one-exposure displayCutouts run on the zero
fixtures. -/
def wFig : Fig :=
  { figsize := (8, 5/2)
  , panels := [{ title := "T Diffim", arr := zArr, extent := some (0, 10, 0, 1)
               , vmin := 0, vmax := 0, showBars := true }] }

/-- C8 (witness): a concrete one-exposure run producing exactly one
Diffim panel with the footprint's bounding-box extent. -/
theorem displayCutouts_panel_layout_witness :
    displayCutouts true ⟨zFp⟩ zExp none none false "T" (8, 5/2) = .ok (some wFig) ∧
    (wFig.panels.length
        = 1 + (if (none : Option Exposure).isSome then 1 else 0)
            + (if (none : Option Exposure).isSome then 1 else 0) ∧
      wFig.panels.map Panel.title
        = ["T" ++ " Diffim"] ++ (if (none : Option Exposure).isSome then ["T" ++ " Pos"] else [])
            ++ (if (none : Option Exposure).isSome then ["T" ++ " Neg"] else []) ∧
      ∀ p ∈ wFig.panels,
        p.extent = some (⟨zFp⟩ : SrcRecord).footprint.bbox.extent) := by
  have hrun : displayCutouts true ⟨zFp⟩ zExp none none false "T" (8, 5/2)
      = .ok (some wFig) := by
    have h2 := displayCutouts_single_run ⟨zFp⟩ zExp false "T" (8, 5/2) 0 0 zscale_zArr
    rw [h2]
    rfl
  exact ⟨hrun, displayCutouts_panel_layout ⟨zFp⟩ zExp none none false "T" (8, 5/2) wFig hrun⟩

/-- C5 (witness): a concrete heavy-footprint run; the single panel's array
is the heavy cutout of the zero exposure, and the cutout is the exposure's
value inside the footprint's pixels and NaN outside. -/
theorem displayCutouts_heavy_footprint_pixels_witness :
    displayCutouts true ⟨zFp⟩ zExp none none true "T" (8, 5/2) = .ok (some wFig) ∧
    (wFig.panels.map Panel.arr
        = (zExp :: ((none : Option Exposure).toList ++ (none : Option Exposure).toList)).map
            (fun e => (cutoutOf (⟨zFp⟩ : SrcRecord).footprint
                (⟨zFp⟩ : SrcRecord).footprint.bbox true e).getArray) ∧
      ∀ (e : Exposure) (x y : ℤ),
        (cutoutOf (⟨zFp⟩ : SrcRecord).footprint
            (⟨zFp⟩ : SrcRecord).footprint.bbox true e).pix x y =
          if (x, y) ∈ (⟨zFp⟩ : SrcRecord).footprint.pixels then e.maskedImage.image x y
          else none) := by
  have hrun : displayCutouts true ⟨zFp⟩ zExp none none true "T" (8, 5/2)
      = .ok (some wFig) := by
    have h2 := displayCutouts_single_run ⟨zFp⟩ zExp true "T" (8, 5/2) 0 0 zscale_zArr
    rw [h2]
    rfl
  exact ⟨hrun, displayCutouts_heavy_footprint_pixels ⟨zFp⟩ zExp none none "T" (8, 5/2) wFig hrun⟩

/-- Whether the figure contains a panel with the given title. -/
def hasPanelTitled (t : String) (f : Fig) : Bool :=
  f.panels.any (fun p => p.title == t)

/-- Whether a display call produced a figure containing a Variance panel. -/
def varianceShown (r : Except PyErr (Option Fig)) : Bool :=
  match r with
  | .ok (some f) => hasPanelTitled "Variance" f
  | _ => false

lemma any_title_map (ps : List Panel) (t : String) :
    (ps.any fun p => p.title == t) = (ps.map Panel.title).any (fun s => s == t) := by
  induction ps with
  | nil => rfl
  | cons a l ih => simp [List.any_cons, ih]

lemma hasPanelTitled_eq (t : String) (f : Fig) :
    hasPanelTitled t f = (f.panels.map Panel.title).any (fun s => s == t) := by
  unfold hasPanelTitled
  exact any_title_map f.panels t

lemma displayMaskedImage_ok_parts {mi : MaskedImg} {sm sv sb : Bool} {w h : ℚ}
    {fig : Fig}
    (hok : displayMaskedImage true mi sm sv sb w h = .ok (some fig)) :
    fig.panels.map Panel.title =
      "Data" :: ((if sm then ["Masks"] else []) ++ (if sv then ["Variance"] else [])) := by
  cases sm <;> cases sv <;>
    simp only [displayMaskedImage, Bool.not_true, Bool.false_eq_true, if_false,
      eq_self_iff_true, if_true] at hok ⊢
  · cases hp1 : renderPanel (getArray2 mi.image mi.bbox) "Data" sb
        (some mi.bbox.extent) with
    | error e => rw [hp1] at hok; exact Except.noConfusion hok
    | ok p1 =>
      rw [hp1] at hok
      obtain rfl := Option.some.inj (Except.ok.inj hok)
      simp [(renderPanel_ok hp1).1]
  · cases hp1 : renderPanel (getArray2 mi.image mi.bbox) "Data" sb
        (some mi.bbox.extent) with
    | error e => rw [hp1] at hok; exact Except.noConfusion hok
    | ok p1 =>
      rw [hp1] at hok
      cases hp3 : renderPanel (getArray2 mi.variance mi.bbox) "Variance" sb
          (some mi.bbox.extent) with
      | error e => rw [hp3] at hok; exact Except.noConfusion hok
      | ok p3 =>
        rw [hp3] at hok
        obtain rfl := Option.some.inj (Except.ok.inj hok)
        simp [(renderPanel_ok hp1).1, (renderPanel_ok hp3).1]
  · cases hp1 : renderPanel (getArray2 mi.image mi.bbox) "Data" sb
        (some mi.bbox.extent) with
    | error e => rw [hp1] at hok; exact Except.noConfusion hok
    | ok p1 =>
      rw [hp1] at hok
      cases hp2 : renderPanel (getArray2 mi.mask mi.bbox) "Masks" sb
          (some mi.bbox.extent) with
      | error e => rw [hp2] at hok; exact Except.noConfusion hok
      | ok p2 =>
        rw [hp2] at hok
        obtain rfl := Option.some.inj (Except.ok.inj hok)
        simp [(renderPanel_ok hp1).1, (renderPanel_ok hp2).1]
  · cases hp1 : renderPanel (getArray2 mi.image mi.bbox) "Data" sb
        (some mi.bbox.extent) with
    | error e => rw [hp1] at hok; exact Except.noConfusion hok
    | ok p1 =>
      rw [hp1] at hok
      cases hp2 : renderPanel (getArray2 mi.mask mi.bbox) "Masks" sb
          (some mi.bbox.extent) with
      | error e => rw [hp2] at hok; exact Except.noConfusion hok
      | ok p2 =>
        rw [hp2] at hok
        cases hp3 : renderPanel (getArray2 mi.variance mi.bbox) "Variance" sb
            (some mi.bbox.extent) with
        | error e => rw [hp3] at hok; exact Except.noConfusion hok
        | ok p3 =>
          rw [hp3] at hok
          obtain rfl := Option.some.inj (Except.ok.inj hok)
          simp [(renderPanel_ok hp1).1, (renderPanel_ok hp2).1, (renderPanel_ok hp3).1]

/-- C9 (amended).  Whenever displayExposure produces a figure, the
Variance panel is present if and only if PSF display was NOT requested -
regardless of the showVariance argument, which the source ignores (it
passes showVariance=not showPsf to displayMaskedImage) - and the PSF
panel is present if and only if PSF display was requested.  In
particular PSF display takes priority over variance display. -/
theorem displayExposure_variance_iff_not_psf (exposure : Exposure)
    (sm sv sp sb : Bool) (w h : ℚ) (fig : Fig)
    (hok : displayExposure true exposure sm sv sp sb w h = .ok (some fig)) :
    hasPanelTitled "Variance" fig = !sp ∧ hasPanelTitled "PSF" fig = sp := by
  simp only [displayExposure, Bool.not_true, Bool.false_eq_true, if_false] at hok
  cases hmi : displayMaskedImage true exposure.maskedImage sm (!sp) sb w h with
  | error e => rw [hmi] at hok; exact Except.noConfusion hok
  | ok figO =>
    rw [hmi] at hok
    cases figO with
    | none => exact Option.noConfusion (Except.ok.inj hok)
    | some mfig =>
      have htitles := displayMaskedImage_ok_parts hmi
      cases sp with
      | false =>
        obtain rfl := Option.some.inj (Except.ok.inj hok)
        rw [hasPanelTitled_eq, hasPanelTitled_eq, htitles]
        cases sm <;> simp
      | true =>
        cases hpp : renderPanel exposure.psfImage.getArray "PSF" sb
            (some exposure.psfImage.bbox.extent) with
        | error e => rw [hpp] at hok; exact Except.noConfusion hok
        | ok p =>
          rw [hpp] at hok
          obtain rfl := Option.some.inj (Except.ok.inj hok)
          rw [hasPanelTitled_eq, hasPanelTitled_eq]
          simp only [Fig.panels]
          rw [List.map_append, htitles]
          cases sm <;> simp [(renderPanel_ok hpp).1]

/-- The Data panel over the zero fixtures. -/
def pDataZ : Panel :=
  { title := "Data", arr := zArr, extent := some (0, 10, 0, 1)
  , vmin := 0, vmax := 0, showBars := true }

/-- The Masks panel over the zero fixtures. -/
def pMasksZ : Panel :=
  { title := "Masks", arr := zArr, extent := some (0, 10, 0, 1)
  , vmin := 0, vmax := 0, showBars := true }

/-- The Variance panel over the zero fixtures. -/
def pVarZ : Panel :=
  { title := "Variance", arr := zArr, extent := some (0, 10, 0, 1)
  , vmin := 0, vmax := 0, showBars := true }

/-- The PSF panel over the zero fixtures. -/
def pPsfZ : Panel :=
  { title := "PSF", arr := zArr, extent := some (0, 10, 0, 1)
  , vmin := 0, vmax := 0, showBars := true }

lemma displayMaskedImage_zMI_run (sm sv : Bool) (w h : ℚ) :
    displayMaskedImage true zMI sm sv true w h = .ok (some
      { figsize := (w, h)
      , panels := pDataZ :: ((if sm then [pMasksZ] else [])
          ++ (if sv then [pVarZ] else [])) }) := by
  have hD : renderPanel (getArray2 zMI.image zMI.bbox) "Data" true
      (some zMI.bbox.extent) = .ok pDataZ :=
    renderPanel_zArr "Data" true (some (0, 10, 0, 1))
  have hM : renderPanel (getArray2 zMI.mask zMI.bbox) "Masks" true
      (some zMI.bbox.extent) = .ok pMasksZ :=
    renderPanel_zArr "Masks" true (some (0, 10, 0, 1))
  have hV : renderPanel (getArray2 zMI.variance zMI.bbox) "Variance" true
      (some zMI.bbox.extent) = .ok pVarZ :=
    renderPanel_zArr "Variance" true (some (0, 10, 0, 1))
  cases sm <;> cases sv <;>
    simp only [displayMaskedImage, Bool.not_true, Bool.false_eq_true, if_false,
      eq_self_iff_true, if_true]
  · rw [hD]; rfl
  · rw [hD, hV]; rfl
  · rw [hD, hM]; rfl
  · rw [hD, hM, hV]; rfl

/-- C9 (counterexample).  The claim says the variance panel appears only
if variance display was requested; but with showVariance=False and
showPsf=False displayExposure still renders a Variance panel, because the
source passes showVariance=not showPsf and ignores its own showVariance
argument. -/
theorem displayExposure_shows_variance_cex :
    varianceShown (displayExposure true zExp true false false true 8 (5/2)) = true := by
  have hrun : displayExposure true zExp true false false true 8 (5/2)
      = .ok (some { figsize := (8, 5/2), panels := [pDataZ, pMasksZ, pVarZ] }) := by
    simp only [displayExposure, Bool.not_true, Bool.not_false, Bool.false_eq_true, if_false]
    have hmi : displayMaskedImage true zExp.maskedImage true true true 8 (5/2)
        = .ok (some { figsize := ((8 : ℚ), (5/2 : ℚ))
                    , panels := pDataZ :: ((if true then [pMasksZ] else [])
                        ++ (if true then [pVarZ] else [])) }) :=
      displayMaskedImage_zMI_run true true 8 (5/2)
    rw [hmi]
    rfl
  rw [hrun]
  rfl

/-- The figure produced by displayExposure with showPsf on the zero
fixtures. -/
def figPsfZ : Fig := { figsize := (8, 5/2), panels := [pDataZ, pMasksZ, pPsfZ] }

/-- C9 (witness for the amended theorem): with showPsf=True the PSF panel
is rendered and the Variance panel is omitted. -/
theorem displayExposure_variance_iff_not_psf_witness :
    displayExposure true zExp true true true true 8 (5/2) = .ok (some figPsfZ) ∧
    (hasPanelTitled "Variance" figPsfZ = !true ∧ hasPanelTitled "PSF" figPsfZ = true) := by
  have hrun : displayExposure true zExp true true true true 8 (5/2)
      = .ok (some figPsfZ) := by
    simp only [displayExposure, Bool.not_true, Bool.false_eq_true, if_false,
      eq_self_iff_true, if_true]
    have hmi : displayMaskedImage true zExp.maskedImage true false true 8 (5/2)
        = .ok (some { figsize := ((8 : ℚ), (5/2 : ℚ))
                    , panels := pDataZ :: ((if true then [pMasksZ] else [])
                        ++ (if false then [pVarZ] else [])) }) :=
      displayMaskedImage_zMI_run true false 8 (5/2)
    rw [hmi]
    have hpsf : renderPanel zExp.psfImage.getArray "PSF" true
        (some zExp.psfImage.bbox.extent) = .ok pPsfZ :=
      renderPanel_zArr "PSF" true (some (0, 10, 0, 1))
    rw [hpsf]
    rfl
  exact ⟨hrun, displayExposure_variance_iff_not_psf zExp true true true true 8 (5/2)
    figPsfZ hrun⟩
